import Mathlib

/-!
Verification of the VaultUSB core (app/crypto.py, app/storage.py) against its
specification.  Byte strings are modelled as `List Nat`; the external
cryptographic primitives (Argon2id raw output, ChaCha20-Poly1305, HKDF,
`secrets.token_bytes`) are idealized: AEAD ciphertexts are symbolic values
that decrypt exactly under the key and nonce they were produced with, HKDF
outputs are opaque values determined by their inputs, and every source of
randomness is an explicit parameter.  All repository-level control flow
(key slicing, envelope layout, file layout, error handling) follows the
Python source line by line.
-/

namespace VaultUSB

/-- Byte strings (each entry intended < 256). -/
abbrev Bytes := List Nat

/-- ASCII bytes of a string literal (`str.encode()` in the source). -/
def strBytes (s : String) : Bytes := s.data.map Char.toNat

/-- Decimal digits of a natural number, as ASCII bytes. -/
def decBytes (n : Nat) : Bytes := (Nat.toDigits 10 n).map Char.toNat

/-- Standard base64 alphabet (RFC 4648), as used by the argon2 encoded form. -/
def b64Char (n : Nat) : Nat :=
  if n < 26 then 65 + n
  else if n < 52 then 97 + (n - 26)
  else if n < 62 then 48 + (n - 52)
  else if n = 62 then 43
  else 47

/-- Unpadded standard base64 of a byte string (argon2 encoded-hash fields). -/
def b64Encode : Bytes → Bytes
  | [] => []
  | [a] => [b64Char (a / 4), b64Char (a % 4 * 16)]
  | [a, b] => [b64Char (a / 4), b64Char (a % 4 * 16 + b / 16), b64Char (b % 16 * 4)]
  | a :: b :: c :: rest =>
      b64Char (a / 4) :: b64Char (a % 4 * 16 + b / 16) ::
      b64Char (b % 16 * 4 + c / 64) :: b64Char (c % 64) :: b64Encode rest

/-- Argon2 cost parameters taken from the configuration
(config.py: argon2_time_cost, argon2_memory_cost, argon2_parallelism). -/
structure ArgonParams where
  time_cost : Nat
  memory_cost : Nat
  parallelism : Nat
deriving DecidableEq

/-- The defaults shipped in config.py (3, 65536, 1). -/
def defaultArgon : ArgonParams := ⟨3, 65536, 1⟩

/-- The textual encoded hash produced by argon2-cffi `PasswordHasher.hash`:
`$argon2id$v=19$m=<m>,t=<t>,p=<p>$<b64 salt>$<b64 raw hash>`, as bytes.
`raw` is the (external, opaque) Argon2id compression function applied to the
password and the 16-byte salt that `hash` draws freshly at random; the model
takes that salt as the explicit parameter `freshSalt`. -/
def encodedHash (raw : ArgonParams → Bytes → Bytes → Bytes) (A : ArgonParams)
    (pw freshSalt : Bytes) : Bytes :=
  strBytes "$argon2id$v=19$m=" ++ decBytes A.memory_cost ++
  strBytes ",t=" ++ decBytes A.time_cost ++
  strBytes ",p=" ++ decBytes A.parallelism ++
  strBytes "$" ++ b64Encode freshSalt ++
  strBytes "$" ++ b64Encode (raw A pw freshSalt)

/-- CryptoManager.derive_key_from_password (crypto.py:34-36):
`return self.argon2_hasher.hash(password.encode()).encode()`.
The caller-supplied `salt` parameter is ignored by the source; the hasher
instead salts with the fresh random `freshSalt` drawn inside `hash`. -/
def derive_key_from_password (raw : ArgonParams → Bytes → Bytes → Bytes)
    (A : ArgonParams) (password : String) (salt : Bytes) (freshSalt : Bytes) : Bytes :=
  encodedHash raw A (strBytes password) freshSalt

/-- Keys handed to the AEAD: either raw bytes (the password-sealing path,
which slices the encoded hash) or an opaque HKDF output (the file-key path). -/
inductive DKey where
  | raw (bytes : Bytes)
  | hkdf (len : Nat) (salt : Bytes) (info : Bytes) (ikm : Bytes)
deriving DecidableEq

/-- Idealized ChaCha20-Poly1305 ciphertext over a byte-string message
(the master-key sealing path). -/
structure SealedCt where
  key : DKey
  nonce : Bytes
  msg : Bytes
deriving DecidableEq

/-- `ChaCha20Poly1305(key).encrypt(nonce, msg, None)` on byte messages. -/
def chachaEncrypt (k : DKey) (n : Bytes) (m : Bytes) : SealedCt := ⟨k, n, m⟩

/-- `ChaCha20Poly1305(key).decrypt(nonce, ct, None)`: succeeds exactly when
the ciphertext was produced under the same key and nonce, else raises
(InvalidTag), modelled as `none`. -/
def chachaDecrypt (k : DKey) (n : Bytes) (c : SealedCt) : Option Bytes :=
  if c.key = k ∧ c.nonce = n then some c.msg else none

/-- The persisted sealed-master-key envelope (crypto.py:50-54); the base64 +
JSON transport encoding round-trips bytes exactly, so the model keeps the
three fields directly. -/
structure SealedEnvelope where
  salt : Bytes
  nonce : Bytes
  sealed_data : SealedCt
deriving DecidableEq

/-- CryptoManager.seal_master_key (crypto.py:38-56).  `saltR` is the random
32-byte envelope salt, `freshSalt` the salt the argon2 hasher draws inside
`derive_key_from_password`, `nonceR` the random 12-byte AEAD nonce. -/
def seal_master_key (raw : ArgonParams → Bytes → Bytes → Bytes) (A : ArgonParams)
    (master_key : Bytes) (password : String)
    (saltR freshSalt nonceR : Bytes) : SealedEnvelope :=
  let derived := derive_key_from_password raw A password saltR freshSalt
  let key := DKey.raw (derived.take 32)
  ⟨saltR, nonceR, chachaEncrypt key nonceR master_key⟩

/-- CryptoManager.unseal_master_key (crypto.py:58-74).  `freshSalt2` is the
salt the argon2 hasher draws during this (second) call to
`derive_key_from_password`; any failure raises ValueError, modelled `none`. -/
def unseal_master_key (raw : ArgonParams → Bytes → Bytes → Bytes) (A : ArgonParams)
    (env : SealedEnvelope) (password : String) (freshSalt2 : Bytes) : Option Bytes :=
  let derived := derive_key_from_password raw A password env.salt freshSalt2
  let key := DKey.raw (derived.take 32)
  chachaDecrypt key env.nonce env.sealed_data

/-- A trivial stand-in for the opaque Argon2id raw output, used only to
evaluate the model at concrete inputs; no theorem below depends on it,
because the first 32 bytes of the encoded hash never reach the raw-hash
field. -/
def trivRaw : ArgonParams → Bytes → Bytes → Bytes := fun _ _ _ => []

/-- C1: the seal/unseal round trip fails on the code.  Unsealing the envelope
sealed under password "pw1" with the same password "pw1" raises
(returns none) whenever the two internal random argon2 salts start with
different base64 characters — and, worse, unsealing with a different
password "pw2" succeeds and returns the master key whenever the internal
salts coincide, because the first 32 bytes of the encoded hash do not
depend on the password at all. -/
theorem seal_unseal_roundtrip_fails :
    unseal_master_key trivRaw defaultArgon
      (seal_master_key trivRaw defaultArgon (List.replicate 32 7) "pw1"
        (List.replicate 32 1) (List.replicate 16 0) (List.replicate 12 2))
      "pw1" (4 :: List.replicate 15 0) = none ∧
    unseal_master_key trivRaw defaultArgon
      (seal_master_key trivRaw defaultArgon (List.replicate 32 7) "pw1"
        (List.replicate 32 1) (List.replicate 16 0) (List.replicate 12 2))
      "pw2" (List.replicate 16 0) = some (List.replicate 32 7) := by
  decide

/-- C2: unlock-key derivation is not deterministic in `(password, salt)`:
two invocations with identical password and identical salt argument return
different outputs as soon as the internal random salts drawn by
`PasswordHasher.hash` differ. -/
theorem derive_key_nondeterministic :
    derive_key_from_password trivRaw defaultArgon "pw"
        (List.replicate 32 0) (List.replicate 16 0) ≠
    derive_key_from_password trivRaw defaultArgon "pw"
        (List.replicate 32 0) (4 :: List.replicate 15 0) := by
  decide

/-- C10: the 32-byte key used by both seal and unseal is the first 32 bytes
of the textual argon2 encoded hash; its first 10 bytes are the constant
ASCII "$argon2id$", and with the shipped parameters its first 31 bytes are
the full printable parameter header, independent of password and salt. -/
theorem sealing_key_is_encoded_hash_head
    (raw : ArgonParams → Bytes → Bytes → Bytes) (mk : Bytes) (password : String)
    (saltR freshSalt nonceR : Bytes) :
    (seal_master_key raw defaultArgon mk password saltR freshSalt nonceR).sealed_data.key =
      DKey.raw ((derive_key_from_password raw defaultArgon password saltR freshSalt).take 32) ∧
    (derive_key_from_password raw defaultArgon password saltR freshSalt).take 10 =
      strBytes "$argon2id$" ∧
    (derive_key_from_password raw defaultArgon password saltR freshSalt).take 31 =
      strBytes "$argon2id$v=19$m=65536,t=3,p=1$" := by
  refine ⟨rfl, ?_, ?_⟩ <;> rfl

/-- In-memory crypto state of the CryptoManager: `_master_key` and
`_is_unlocked` (crypto.py:27-28). -/
structure CryptoState where
  master_key : Option Bytes
  is_unlocked : Bool
deriving DecidableEq

/-- Python truthiness of `self._master_key` (`not self._master_key` is true
for both `None` and the empty byte string). -/
def key_truthy (cs : CryptoState) : Bool :=
  match cs.master_key with
  | none => false
  | some k => decide (k ≠ [])

/-- The guard `not self._is_unlocked or not self._master_key` used inside
derive_file_key / encrypt_file / decrypt_file, negated. -/
def guard_unlocked (cs : CryptoState) : Bool :=
  cs.is_unlocked && key_truthy cs

/-- CryptoManager.is_unlocked (crypto.py:195-197):
`self._is_unlocked and self._master_key is not None`. -/
def is_unlocked (cs : CryptoState) : Bool :=
  cs.is_unlocked && cs.master_key.isSome

/-- Contents of an on-disk file: either raw bytes, or the encrypted layout
`nonce (12 bytes) || ChaCha20Poly1305(key).encrypt(nonce, msg, None)`
written by encrypt_file; `head` is the 12-byte prefix, and the ciphertext
is the idealized AEAD value carrying the key, the nonce and the message it
was produced from. -/
inductive FileData where
  | raw (bytes : Bytes)
  | blob (head : Bytes) (key : DKey) (nonce : Bytes) (msg : FileData)
deriving DecidableEq

/-- Byte length of a file (the AEAD tag contributes 16 bytes). -/
def FileData.size : FileData → Nat
  | .raw b => b.length
  | .blob h _ _ m => h.length + m.size + 16

/-- The vault directory, as a map from filename to contents. -/
abbrev FS := List (String × FileData)

def fsLookup (fs : FS) (p : String) : Option FileData :=
  (fs.find? fun e => decide (e.1 = p)).map (·.2)

def fsWrite (fs : FS) (p : String) (d : FileData) : FS :=
  (p, d) :: fs.filter fun e => decide (e.1 ≠ p)

def fsRemove (fs : FS) (p : String) : FS :=
  fs.filter fun e => decide (e.1 ≠ p)

/-- RuntimeError("Master key not unlocked") raised by the crypto layer. -/
inductive CryptoErr where
  | notUnlocked
deriving DecidableEq

/-- decrypt_file raises RuntimeError when locked and ValueError on any
failure inside its try block. -/
inductive DecryptErr where
  | notUnlocked
  | valueError
deriving DecidableEq

/-- CryptoManager.derive_file_key (crypto.py:108-119): HKDF-SHA256 with
length 32 (config file_key_size), salt "vaultusb_file_key" and the file id
as info, over the master key; the HKDF output is opaque, determined by its
inputs. -/
def derive_file_key (cs : CryptoState) (file_id : String) : Except CryptoErr DKey :=
  if guard_unlocked cs then
    .ok (.hkdf 32 (strBytes "vaultusb_file_key") (strBytes file_id)
      (cs.master_key.getD []))
  else .error .notUnlocked

/-- CryptoManager.encrypt_file (crypto.py:121-145): reads the file at
`path`, encrypts its contents under the derived file key with the fresh
random `nonce`, overwrites the file with `nonce || ciphertext`, and returns
True; any exception inside the try block (modelled by `raises`, and by a
missing file) is caught and yields False.  Raises RuntimeError when the
guard fails. -/
def encrypt_file (cs : CryptoState) (fs : FS) (path file_id : String)
    (nonce : Bytes) (raises : Bool) : Except CryptoErr (Bool × FS) :=
  if ¬ guard_unlocked cs then .error .notUnlocked
  else if raises then .ok (false, fs)
  else
    match derive_file_key cs file_id with
    | .error _ => .ok (false, fs)
    | .ok key =>
      match fsLookup fs path with
      | none => .ok (false, fs)
      | some d => .ok (true, fsWrite fs path (.blob nonce key nonce d))

/-- CryptoManager.decrypt_file (crypto.py:147-169): reads the file, splits
the first 12 bytes off as the nonce, decrypts the rest under the derived
file key, and returns the plaintext; any failure inside the try block
(missing file, malformed contents, AEAD authentication failure) raises
ValueError.  Raises RuntimeError when the guard fails. -/
def decrypt_file (cs : CryptoState) (fs : FS) (path file_id : String) :
    Except DecryptErr FileData :=
  if ¬ guard_unlocked cs then .error .notUnlocked
  else
    match derive_file_key cs file_id with
    | .error _ => .error .valueError
    | .ok key =>
      match fsLookup fs path with
      | none => .error .valueError
      | some (.raw _) => .error .valueError
      | some (.blob head k n m) =>
        if k = key ∧ n = head then .ok m else .error .valueError

/-- `secrets.token_bytes(n)`: the `call`-th draw of `n` fresh random bytes
from the entropy source. -/
def token_bytes (entropy : Nat → Nat → Nat) (call n : Nat) : Bytes :=
  (List.range n).map fun j => entropy call j % 256

/-- One overwrite pass of secure_delete: the bytes written over the file's
extent, followed by flush + fsync (`synced`). -/
structure ErasePass where
  data : Bytes
  synced : Bool
deriving DecidableEq

/-- CryptoManager.secure_delete (crypto.py:171-193): a missing file is
success with no side effects; an existing file of size `sz` is overwritten
with `token_bytes sz` three times (each write flushed and fsynced), then
unlinked; any I/O exception (`ioFail`) is caught and yields False.  Returns
(result, resulting directory, overwrite passes performed). -/
def secure_delete (fs : FS) (path : String) (entropy : Nat → Nat → Nat)
    (ioFail : Bool) : Bool × FS × List ErasePass :=
  match fsLookup fs path with
  | none => (true, fs, [])
  | some d =>
    if ioFail then (false, fs, [])
    else
      (true, fsRemove fs path,
        [⟨token_bytes entropy 0 d.size, true⟩,
         ⟨token_bytes entropy 1 d.size, true⟩,
         ⟨token_bytes entropy 2 d.size, true⟩])

/-- A row of the `files` table (models.py File), restricted to the fields
the storage engine reads or writes. -/
structure DBRec where
  id : String
  original_name : String
  encrypted_name : String
  size : Nat
  user_id : Nat
  is_deleted : Bool
deriving DecidableEq

/-- Whole-system state: crypto manager, vault directory, database. -/
structure SysState where
  cs : CryptoState
  fs : FS
  db : List DBRec
deriving DecidableEq

/-- The query `File.id == file_id, File.user_id == user.id,
File.is_deleted == False ... .first()` used by retrieve/delete. -/
def findActive (db : List DBRec) (file_id : String) (user_id : Nat) : Option DBRec :=
  db.find? fun r =>
    decide (r.id = file_id) && decide (r.user_id = user_id) && !r.is_deleted

/-- `file_record.is_deleted = True` + commit on the record(s) matched by the
active query (ids are unique uuid4 values, so at most one row changes). -/
def markDeleted (db : List DBRec) (file_id : String) (user_id : Nat) : List DBRec :=
  db.map fun r =>
    if r.id = file_id ∧ r.user_id = user_id ∧ r.is_deleted = false then
      { r with is_deleted := true }
    else r

/-- RuntimeError("Vault is locked") raised outside the try block of each
storage operation. -/
inductive StorageErr where
  | vaultLocked
deriving DecidableEq

/-- Fault injection for store_file: an exception inside encrypt_file's try
block, and an exception at the database add/commit step. -/
structure StoreFaults where
  encrypt_raises : Bool
  commit_raises : Bool
deriving DecidableEq

/-- StorageManager.store_file (storage.py:35-74).  `file_id` and
`encrypted_filename` are the freshly generated uuid and random filename,
`nonce` the random AEAD nonce drawn inside encrypt_file.  Returns the
result, the final state, and the successive contents of the vault
directory after each write step (for inspection of what reached disk).
Control flow: raise VaultLocked when locked; write the plaintext to the
allocated path; run encrypt_file, unlinking the file and returning None if
it reports failure (a RuntimeError from it is caught by the outer except
with no cleanup); insert and commit the metadata record, an exception
there being caught by the outer except with no cleanup; return the file
id. -/
def store_file (st : SysState) (file_data : Bytes) (original_name : String)
    (user_id : Nat) (file_id encrypted_filename : String) (nonce : Bytes)
    (faults : StoreFaults) : Except StorageErr (Option String) × SysState × List FS :=
  if ¬ is_unlocked st.cs then (.error .vaultLocked, st, [])
  else
    let fs1 := fsWrite st.fs encrypted_filename (.raw file_data)
    match encrypt_file st.cs fs1 encrypted_filename file_id nonce faults.encrypt_raises with
    | .error _ => (.ok none, { st with fs := fs1 }, [fs1])
    | .ok (false, fs2) =>
      let fs3 := fsRemove fs2 encrypted_filename
      (.ok none, { st with fs := fs3 }, [fs1, fs2, fs3])
    | .ok (true, fs2) =>
      if faults.commit_raises then (.ok none, { st with fs := fs2 }, [fs1, fs2])
      else
        (.ok (some file_id),
         { st with fs := fs2,
                   db := ⟨file_id, original_name, encrypted_filename,
                          file_data.length, user_id, false⟩ :: st.db },
         [fs1, fs2])

/-- StorageManager.retrieve_file (storage.py:76-102): raise VaultLocked when
locked; return None when no active record matches, when the blob file is
missing, or when decrypt_file raises (the broad except at storage.py:100
catches the ValueError); otherwise return the decrypted contents. -/
def retrieve_file (st : SysState) (file_id : String) (user_id : Nat) :
    Except StorageErr (Option FileData) :=
  if ¬ is_unlocked st.cs then .error .vaultLocked
  else
    match findActive st.db file_id user_id with
    | none => .ok none
    | some r =>
      if (fsLookup st.fs r.encrypted_name).isNone then .ok none
      else
        match decrypt_file st.cs st.fs r.encrypted_name file_id with
        | .ok m => .ok (some m)
        | .error _ => .ok none

/-- StorageManager.delete_file (storage.py:104-135): raise VaultLocked when
locked; return False when no active record matches; otherwise mark the
record deleted, commit, call secure_delete on the blob when present with
its Boolean result discarded, and return True. -/
def delete_file (st : SysState) (file_id : String) (user_id : Nat)
    (entropy : Nat → Nat → Nat) (eraseFail : Bool) :
    Except StorageErr Bool × SysState × List ErasePass :=
  if ¬ is_unlocked st.cs then (.error .vaultLocked, st, [])
  else
    match findActive st.db file_id user_id with
    | none => (.ok false, st, [])
    | some r =>
      let db2 := markDeleted st.db file_id user_id
      if (fsLookup st.fs r.encrypted_name).isSome then
        let er := secure_delete st.fs r.encrypted_name entropy eraseFail
        (.ok true, { st with fs := er.2.1, db := db2 }, er.2.2)
      else (.ok true, { st with db := db2 }, [])

deriving instance DecidableEq for Except

theorem fsLookup_fsWrite_self (fs : FS) (p : String) (d : FileData) :
    fsLookup (fsWrite fs p d) p = some d := by
  unfold fsLookup fsWrite
  rw [List.find?_cons_of_pos]
  · rfl
  · simp

theorem fsLookup_fsRemove_self (fs : FS) (p : String) :
    fsLookup (fsRemove fs p) p = none := by
  unfold fsLookup fsRemove
  induction fs with
  | nil => rfl
  | cons e t ih =>
    by_cases h : e.1 = p <;>
      simp [List.filter_cons, List.find?_cons, h, ih]

/-- C3: the plaintext reaches the allocated on-disk vault file during store.
On a successful run, the first disk state after the initial write holds the
raw plaintext at the allocated filename; only the later in-place encryption
replaces it with nonce‖ciphertext. -/
theorem store_writes_plaintext_to_disk :
    (store_file ⟨⟨some [7], true⟩, [], []⟩ [1, 2, 3] "a.txt" 1 "fid" "ename" [9]
        ⟨false, false⟩).2.2.head? = some [("ename", FileData.raw [1, 2, 3])] ∧
    fsLookup [("ename", FileData.raw [1, 2, 3])] "ename" = some (.raw [1, 2, 3]) ∧
    (store_file ⟨⟨some [7], true⟩, [], []⟩ [1, 2, 3] "a.txt" 1 "fid" "ename" [9]
        ⟨false, false⟩).1 = .ok (some "fid") := by
  decide

/-- C4: file encryption round trip.  With the vault unlocked on master key
`mk`, encrypting the raw contents `p` stored at `path` under the key derived
from `(mk, file_id)` with a fresh nonce succeeds, and decrypting the
resulting nonce‖ciphertext blob with the key derived again from
`(mk, file_id)` returns exactly `p`. -/
theorem encrypt_decrypt_roundtrip (mk p : Bytes) (hmk : mk ≠ [])
    (fs : FS) (path file_id : String) (nonce : Bytes) :
    encrypt_file ⟨some mk, true⟩ (fsWrite fs path (.raw p)) path file_id nonce false =
      .ok (true, fsWrite (fsWrite fs path (.raw p)) path
        (.blob nonce (.hkdf 32 (strBytes "vaultusb_file_key") (strBytes file_id) mk)
          nonce (.raw p))) ∧
    decrypt_file ⟨some mk, true⟩
      (fsWrite (fsWrite fs path (.raw p)) path
        (.blob nonce (.hkdf 32 (strBytes "vaultusb_file_key") (strBytes file_id) mk)
          nonce (.raw p)))
      path file_id = .ok (.raw p) := by
  have hg : guard_unlocked ⟨some mk, true⟩ = true := by
    simp [guard_unlocked, key_truthy, hmk]
  constructor
  · simp [encrypt_file, hg, derive_file_key, fsLookup_fsWrite_self]
  · simp [decrypt_file, hg, derive_file_key, fsLookup_fsWrite_self]

theorem encrypt_decrypt_roundtrip_witness :
    decrypt_file ⟨some [7], true⟩
      (fsWrite (fsWrite [] "e" (.raw [1, 2, 3])) "e"
        (.blob [9] (.hkdf 32 (strBytes "vaultusb_file_key") (strBytes "f") [7])
          [9] (.raw [1, 2, 3])))
      "e" "f" = .ok (.raw [1, 2, 3]) :=
  (encrypt_decrypt_roundtrip [7] [1, 2, 3] (by decide) [] "e" "f" [9]).2

/-- C5: lock gating.  When the vault is locked, store, retrieve and delete
all fail with VaultLocked, and neither the vault directory nor the database
changes. -/
theorem locked_ops_fail_and_preserve_state (st : SysState)
    (h : is_unlocked st.cs = false)
    (file_data : Bytes) (original_name : String) (user_id : Nat)
    (file_id encrypted_filename : String) (nonce : Bytes) (faults : StoreFaults)
    (entropy : Nat → Nat → Nat) (eraseFail : Bool) :
    store_file st file_data original_name user_id file_id encrypted_filename
      nonce faults = (.error .vaultLocked, st, []) ∧
    retrieve_file st file_id user_id = .error .vaultLocked ∧
    delete_file st file_id user_id entropy eraseFail =
      (.error .vaultLocked, st, []) := by
  refine ⟨?_, ?_, ?_⟩ <;> simp [store_file, retrieve_file, delete_file, h]

theorem locked_ops_witness :
    store_file ⟨⟨none, false⟩, [], []⟩ [1] "a" 1 "f" "e" [9] ⟨false, false⟩ =
      (.error .vaultLocked, ⟨⟨none, false⟩, [], []⟩, []) ∧
    retrieve_file ⟨⟨none, false⟩, [], []⟩ "f" 1 = .error .vaultLocked ∧
    delete_file ⟨⟨none, false⟩, [], []⟩ "f" 1 (fun _ _ => 0) false =
      (.error .vaultLocked, ⟨⟨none, false⟩, [], []⟩, []) :=
  locked_ops_fail_and_preserve_state ⟨⟨none, false⟩, [], []⟩ rfl
    [1] "a" 1 "f" "e" [9] ⟨false, false⟩ (fun _ _ => 0) false

/-- C6: retrieve masks AEAD authentication failure as "not found".  On a
state with an active record whose blob fails authentication, retrieve
returns the same observable (`ok none`) it returns when no record exists at
all, contradicting the required distinct DecryptionFailure signal. -/
theorem retrieve_masks_auth_failure :
    retrieve_file ⟨⟨some [7], true⟩,
        [("e1", .blob [0] (.raw [9]) [0] (.raw [5]))],
        [⟨"f1", "a", "e1", 1, 1, false⟩]⟩ "f1" 1 = .ok none ∧
    retrieve_file ⟨⟨some [7], true⟩,
        [("e1", .blob [0] (.raw [9]) [0] (.raw [5]))],
        [⟨"f1", "a", "e1", 1, 1, false⟩]⟩ "missing" 1 = .ok none := by
  decide

/-- C7: when the database commit fails after the blob was written and
encrypted, store returns None without removing the file: the encrypted blob
stays on disk with no matching catalog entry. -/
theorem store_commit_failure_leaves_orphan :
    (store_file ⟨⟨some [7], true⟩, [], []⟩ [1, 2, 3] "a.txt" 1 "fid" "ename" [9]
        ⟨false, true⟩).1 = .ok none ∧
    fsLookup (store_file ⟨⟨some [7], true⟩, [], []⟩ [1, 2, 3] "a.txt" 1 "fid"
        "ename" [9] ⟨false, true⟩).2.1.fs "ename" =
      some (.blob [9] (.hkdf 32 (strBytes "vaultusb_file_key") (strBytes "fid") [7])
        [9] (.raw [1, 2, 3])) ∧
    (store_file ⟨⟨some [7], true⟩, [], []⟩ [1, 2, 3] "a.txt" 1 "fid" "ename" [9]
        ⟨false, true⟩).2.1.db = [] := by
  decide

/-- C8: delete reports success even when the secure erase of the existing
blob fails; the blob is still on disk while the call returns True. -/
theorem delete_reports_success_despite_erase_failure :
    (delete_file ⟨⟨some [7], true⟩, [("e1", FileData.raw [5])],
        [⟨"f1", "a", "e1", 1, 1, false⟩]⟩ "f1" 1 (fun _ _ => 0) true).1 = .ok true ∧
    fsLookup (delete_file ⟨⟨some [7], true⟩, [("e1", FileData.raw [5])],
        [⟨"f1", "a", "e1", 1, 1, false⟩]⟩ "f1" 1 (fun _ _ => 0) true).2.1.fs "e1" =
      some (FileData.raw [5]) := by
  decide

/-- C9: secure eraser contract.  A missing path is success with no side
effects; an existing file is overwritten with three passes of fresh random
bytes covering its full extent, each pass synced to durable storage, and the
directory entry is then removed. -/
theorem secure_delete_contract (fs : FS) (path : String)
    (entropy : Nat → Nat → Nat) :
    (fsLookup fs path = none → secure_delete fs path entropy false = (true, fs, [])) ∧
    (∀ d, fsLookup fs path = some d →
      (secure_delete fs path entropy false).1 = true ∧
      (secure_delete fs path entropy false).2.1 = fsRemove fs path ∧
      fsLookup (secure_delete fs path entropy false).2.1 path = none ∧
      (secure_delete fs path entropy false).2.2.length = 3 ∧
      ∀ pass ∈ (secure_delete fs path entropy false).2.2,
        pass.data.length = d.size ∧ pass.synced = true) := by
  constructor
  · intro h
    simp [secure_delete, h]
  · intro d h
    simp [secure_delete, h, fsLookup_fsRemove_self, token_bytes]

theorem secure_delete_contract_witness :
    secure_delete [] "p" (fun _ _ => 0) false = (true, [], []) ∧
    fsLookup (secure_delete [("p", FileData.raw [1, 2])] "p"
      (fun _ _ => 0) false).2.1 "p" = none :=
  ⟨(secure_delete_contract [] "p" (fun _ _ => 0)).1 rfl,
   (((secure_delete_contract [("p", FileData.raw [1, 2])] "p" (fun _ _ => 0)).2
      (FileData.raw [1, 2]) rfl).2.2).1⟩

end VaultUSB
